import Mathlib

/-!
Verification of the taxitip-proxy server (src/opensky-proxy/server.js)
against its natural-language specification.

The JavaScript source is shallowly embedded: each relevant function of
`server.js` becomes a Lean definition over explicit state; the network is
modelled as a function from attempt index to the outcome of that attempt
(either a resolved HTTP response, with any status, or a thrown error such
as a network failure or timeout, carried as a string).
-/

namespace TaxitipProxy

/-- The outcome of one underlying `fetch` call: `node-fetch` resolves with a
response for every HTTP status (it does not throw on non-2xx), and rejects
(throws) only on network failure or timeout. -/
inductive AttemptResult where
  | success (status : Nat) (wellFormed : Bool) (bodyText : String)
  | failure (e : String)
  deriving DecidableEq, Repr

/-- A resolved HTTP response as the route handlers see it: status, whether
the body text parses as JSON, and the body text itself. -/
structure HttpResponse where
  status : Nat
  wellFormed : Bool
  bodyText : String
  deriving DecidableEq, Repr

/-- Observable trace of one `fetchWithRetry` run: the final result (the
response returned, or the last thrown error re-thrown after the loop), the
number of attempts made, and the list of delays slept between attempts. -/
structure RetryTrace where
  result : Except String HttpResponse
  attempts : Nat
  delays : List Nat
  deriving Repr

/-- The retry loop of `fetchWithRetry` (server.js lines 38-49), embedded by
recursion on the number of attempts still allowed (`left`, initially
`retries + 1`).  `i` is the current attempt index.  A resolved response —
whatever its status — is returned immediately; a thrown error is retried
after a fixed `delay` sleep unless this was the last allowed attempt, in
which case the last error is the result. -/
def fetchLoop (upstream : Nat → AttemptResult) (delay : Nat) : Nat → Nat → RetryTrace
  | _, 0 => ⟨.error "", 0, []⟩
  | i, left + 1 =>
    match upstream i with
    | .success st wf body => ⟨.ok ⟨st, wf, body⟩, 1, []⟩
    | .failure e =>
      if left = 0 then ⟨.error e, 1, []⟩
      else
        let rest := fetchLoop upstream delay (i + 1) left
        ⟨rest.result, rest.attempts + 1, delay :: rest.delays⟩

/-- `fetchWithRetry(url, opts, retries)` from server.js: up to `retries + 1`
attempts starting at attempt index 0, sleeping `TOKEN_RETRY_DELAY_MS`
(here `delay`) between attempts. -/
def fetchWithRetry (upstream : Nat → AttemptResult) (delay retries : Nat) : RetryTrace :=
  fetchLoop upstream delay 0 (retries + 1)

/-- The retriable status set named by the specification. -/
def retriableStatuses : List Nat := [408, 429, 500, 502, 503, 504]

/-- The OAuth token cache slot (`cachedToken` in server.js, line 52):
`{ access_token, expires_at }`, with `expires_at` an epoch-millisecond
timestamp. -/
structure CachedToken where
  access_token : String
  expires_at : Nat
  deriving DecidableEq, Repr

/-- The parsed view of the token endpoint's response, as lines 72-79 of
server.js see it after `r.text()` and `JSON.parse`:
`ok` is `r.ok` (status in 200-299), `status` is `r.status`,
`accessToken` is `data.access_token` with `""` standing for a JS-falsy
value (absent field, empty string, or a body that failed to parse),
`expiresIn` is `data.expires_in` in seconds with `0` standing for a JS-falsy
value, and `stringified` is `JSON.stringify(data)` (for a malformed body,
the stringification of `{ raw }`). -/
structure TokenUpstreamResponse where
  ok : Bool
  status : Nat
  accessToken : String
  expiresIn : Nat
  stringified : String
  deriving DecidableEq, Repr

/-- The error thrown by `fetchTokenFromOpenSky` on a bad token response
(line 76): it carries the upstream status and the stringified body
truncated to 300 characters. -/
structure TokenError where
  status : Nat
  msg : String
  deriving DecidableEq, Repr

/-- Message text of the thrown `Error`, as `String(err)` renders it in the
route handlers. -/
def TokenError.render (e : TokenError) : String :=
  "Error: OpenSky token error (status " ++ toString e.status ++ "): " ++ e.msg

/-- `fetchTokenFromOpenSky` (server.js lines 56-85), given the current time
`now` (epoch ms), the token-endpoint response `resp`, and the current cache
`st`.  Returns the access token and the new cache state, or the thrown
error and the unchanged cache state.  On success the cache is overwritten
with `expires_at = now + floor(ttl * 0.9)` where
`ttl = (expires_in || 1800) * 1000`. -/
def fetchTokenFromOpenSky (now : Nat) (resp : TokenUpstreamResponse)
    (st : Option CachedToken) : Except TokenError String × Option CachedToken :=
  if !resp.ok || resp.accessToken == "" then
    (.error ⟨resp.status, resp.stringified.take 300⟩, st)
  else
    let ttl := (if resp.expiresIn == 0 then 1800 else resp.expiresIn) * 1000
    (.ok resp.accessToken, some ⟨resp.accessToken, now + ttl * 9 / 10⟩)

/-- `getToken` (server.js lines 87-91) in OAuth-configured mode, given the
current time and the token-endpoint response a fetch would see.  The third
component counts token fetches performed: `0` when the cached token is
served (`Date.now() < expires_at`, strict), `1` when
`fetchTokenFromOpenSky` runs. -/
def getToken (now : Nat) (st : Option CachedToken) (resp : TokenUpstreamResponse) :
    Except TokenError String × Option CachedToken × Nat :=
  match st with
  | some tok =>
    if now < tok.expires_at then (.ok tok.access_token, some tok, 0)
    else
      let r := fetchTokenFromOpenSky now resp st
      (r.1, r.2, 1)
  | none =>
    let r := fetchTokenFromOpenSky now resp st
    (r.1, r.2, 1)

/-- The base64 alphabet used by `Buffer.toString('base64')`. -/
def base64Alphabet : List Char :=
  "ABCDEFGHIJKLMNOPQRSTUVWXYZabcdefghijklmnopqrstuvwxyz0123456789+/".toList

def b64Char (n : Nat) : Char := base64Alphabet.getD n 'A'

/-- Standard base64 of a byte sequence, with `=` padding, as
`Buffer.from(s).toString('base64')` produces. -/
def base64Chunks : List Nat → List Char
  | [] => []
  | [b1] => [b64Char (b1 / 4), b64Char (b1 % 4 * 16), '=', '=']
  | [b1, b2] =>
    [b64Char (b1 / 4), b64Char (b1 % 4 * 16 + b2 / 16), b64Char (b2 % 16 * 4), '=']
  | b1 :: b2 :: b3 :: rest =>
    b64Char (b1 / 4) :: b64Char (b1 % 4 * 16 + b2 / 16) ::
      b64Char (b2 % 16 * 4 + b3 / 64) :: b64Char (b3 % 64) :: base64Chunks rest

/-- UTF-8 encoding of one character (what `Buffer.from` applies to a JS
string by default). -/
def utf8Bytes (c : Char) : List Nat :=
  let n := c.toNat
  if n < 128 then [n]
  else if n < 2048 then [192 + n / 64, 128 + n % 64]
  else if n < 65536 then [224 + n / 4096, 128 + n / 64 % 64, 128 + n % 64]
  else [240 + n / 262144, 128 + n / 4096 % 64, 128 + n / 64 % 64, 128 + n % 64]

def strBytes (s : String) : List Nat :=
  s.toList.foldr (fun c acc => utf8Bytes c ++ acc) []

/-- `Buffer.from(s).toString('base64')`. -/
def toBase64 (s : String) : String := String.mk (base64Chunks (strBytes s))

/-- Process-start configuration of the server: the four credential strings
(`''` when the environment variable is unset, as in server.js lines 11-14),
the shared secret, and the retry policy constants. -/
structure Config where
  user : String
  pass : String
  clientId : String
  clientSecret : String
  proxySecret : String
  retryDelay : Nat
  maxRetries : Nat
  deriving DecidableEq, Repr

/-- `basicConfigured = !!(OSK_USER && OSK_PASS)` (line 54). -/
def basicConfigured (c : Config) : Bool := c.user != "" && c.pass != ""

/-- `oauthConfigured = !!(OSK_CLIENT_ID && OSK_CLIENT_SECRET)` (line 53). -/
def oauthConfigured (c : Config) : Bool := c.clientId != "" && c.clientSecret != ""

inductive Route where
  | health
  | token
  | states
  deriving DecidableEq, Repr

/-- An inbound request: target route, the `x-proxy-secret` header (none when
absent), and the `token` query parameter (`""` when absent or empty, both
JS-falsy). -/
structure Request where
  route : Route
  secretHeader : Option String
  queryToken : String
  deriving DecidableEq, Repr

/-- The JSON body shapes the server can send. -/
inductive Body where
  | healthOk (ts : Nat)
  | tokenOk (access_token : String)
  | errorMsg (error : String)
  | errorDetail (error detail : String)
  | passthrough (json : String)
  | rawWrap (raw : String)
  deriving DecidableEq, Repr

/-- Whether the body is a JSON object with an `error` field. -/
def Body.hasErrorField : Body → Bool
  | .errorMsg _ => true
  | .errorDetail _ _ => true
  | _ => false

/-- Observable outcome of serving one request: HTTP status, body, token
cache state afterwards, number of token fetches performed, number of
attempts made against the states upstream, and the `Authorization` header
sent upstream (none when no states fetch was started). -/
structure ServeResult where
  status : Nat
  body : Body
  tokenState : Option CachedToken
  tokenFetches : Nat
  statesAttempts : Nat
  sentAuth : Option String
  deriving Repr

/-- The tail of the states handler (server.js lines 160-167): run
`fetchWithRetry` against the states upstream with the chosen `auth` header;
on a resolved response, pass its status through and return the parsed JSON
(or `{ raw }` when the body does not parse); on a thrown error, respond
504 with `error: 'Upstream timeout'` and the rendered error as detail. -/
def statesFetch (cfg : Config) (statesUp : Nat → AttemptResult) (auth : String)
    (st : Option CachedToken) (tf : Nat) : ServeResult :=
  let tr := fetchWithRetry statesUp cfg.retryDelay cfg.maxRetries
  { status := match tr.result with
      | .ok r => r.status
      | .error _ => 504
    body := match tr.result with
      | .ok r => if r.wellFormed then .passthrough r.bodyText else .rawWrap r.bodyText
      | .error e => .errorDetail "Upstream timeout" e
    tokenState := st
    tokenFetches := tf
    statesAttempts := tr.attempts
    sentAuth := some auth }

/-- The `/opensky/states` handler (server.js lines 137-168), after the
shared-secret middleware has passed.  Authorization priority: a non-empty
`?token=` query parameter, then Basic credentials, then OAuth via
`getToken`; with no credentials at all, 400.  A `getToken` throw is caught
by the surrounding try/catch and answered 504 without contacting the states
upstream. -/
def statesRoute (cfg : Config) (st : Option CachedToken) (now : Nat) (req : Request)
    (tokenResp : TokenUpstreamResponse) (statesUp : Nat → AttemptResult) : ServeResult :=
  if req.queryToken != "" then
    statesFetch cfg statesUp ("Bearer " ++ req.queryToken) st 0
  else if basicConfigured cfg then
    statesFetch cfg statesUp ("Basic " ++ toBase64 (cfg.user ++ ":" ++ cfg.pass)) st 0
  else if oauthConfigured cfg then
    match getToken now st tokenResp with
    | (.ok t, st', n) => statesFetch cfg statesUp ("Bearer " ++ t) st' n
    | (.error e, st', n) =>
      ⟨504, .errorDetail "Upstream timeout" e.render, st', n, 0, none⟩
  else
    ⟨400, .errorMsg "No hay credenciales disponibles. Configure OPENSKY_USERNAME/PASSWORD o OPENSKY_CLIENT_ID/SECRET, o pase ?token=", st, 0, 0, none⟩

/-- The server's route handling.  `/health` and `/opensky/token` are
registered before the protection middleware (server.js lines 106-127), so
they never see the shared-secret check; `/opensky/states` is registered
after it (lines 130-168), so a mismatching `x-proxy-secret` header is
answered 403 `{error: 'Unauthorized'}` before anything else happens. -/
def serve (cfg : Config) (st : Option CachedToken) (now : Nat) (req : Request)
    (tokenResp : TokenUpstreamResponse) (statesUp : Nat → AttemptResult) : ServeResult :=
  match req.route with
  | .health => ⟨200, .healthOk now, st, 0, 0, none⟩
  | .token =>
    if basicConfigured cfg && !oauthConfigured cfg then
      ⟨503, .errorMsg "OAuth no configurado; el proxy usa Basic. Configure OPENSKY_CLIENT_ID/SECRET si desea OAuth.", st, 0, 0, none⟩
    else if !oauthConfigured cfg then
      ⟨503, .errorMsg "OAuth no disponible. Configure OPENSKY_CLIENT_ID/SECRET.", st, 0, 0, none⟩
    else
      match getToken now st tokenResp with
      | (.ok t, st', n) => ⟨200, .tokenOk t, st', n, 0, none⟩
      | (.error e, st', n) =>
        ⟨504, .errorDetail "Upstream timeout o no disponible" e.render, st', n, 0, none⟩
  | .states =>
    if req.secretHeader != some cfg.proxySecret then
      ⟨403, .errorMsg "Unauthorized", st, 0, 0, none⟩
    else
      statesRoute cfg st now req tokenResp statesUp

end TaxitipProxy

namespace TaxitipProxy

theorem fetchLoop_succ (upstream : Nat → AttemptResult) (delay i left : Nat) :
    fetchLoop upstream delay i (left + 1) =
      match upstream i with
      | .success st wf body => ⟨.ok ⟨st, wf, body⟩, 1, []⟩
      | .failure err =>
        if left = 0 then ⟨.error err, 1, []⟩
        else
          let rest := fetchLoop upstream delay (i + 1) left
          ⟨rest.result, rest.attempts + 1, delay :: rest.delays⟩ := rfl

theorem fetchLoop_success (upstream : Nat → AttemptResult) (delay i left : Nat)
    (st : Nat) (wf : Bool) (body : String)
    (h : upstream i = .success st wf body) :
    fetchLoop upstream delay i (left + 1) = ⟨.ok ⟨st, wf, body⟩, 1, []⟩ := by
  simp [fetchLoop, h]

theorem fetchLoop_firstSuccess (upstream : Nat → AttemptResult) (delay : Nat)
    (e : Nat → String) (st : Nat) (wf : Bool) (body : String) :
    ∀ k i left, k < left →
      (∀ j, j < k → upstream (i + j) = .failure (e (i + j))) →
      upstream (i + k) = .success st wf body →
      fetchLoop upstream delay i left =
        ⟨.ok ⟨st, wf, body⟩, k + 1, List.replicate k delay⟩ := by
  intro k
  induction k with
  | zero =>
    intro i left hlt _ hsucc
    obtain ⟨m, rfl⟩ : ∃ m, left = m + 1 := ⟨left - 1, by omega⟩
    exact fetchLoop_success upstream delay i m st wf body (by simpa using hsucc)
  | succ n ih =>
    intro i left hlt hthrow hsucc
    obtain ⟨m, rfl⟩ : ∃ m, left = m + 1 := ⟨left - 1, by omega⟩
    have hfail0 : upstream i = .failure (e i) := by simpa using hthrow 0 (by omega)
    have hmne : ¬ (m = 0) := by omega
    have hrec := ih (i + 1) m (by omega)
      (fun j hj => by
        have h := hthrow (j + 1) (by omega)
        rw [show i + 1 + j = i + (j + 1) by omega]
        exact h)
      (by
        rw [show i + 1 + n = i + (n + 1) by omega]
        exact hsucc)
    rw [fetchLoop_succ, hfail0]
    simp only [hmne, if_false, hrec]
    simp [List.replicate_succ]

theorem fetchLoop_allFail (upstream : Nat → AttemptResult) (delay : Nat)
    (e : Nat → String) (h : ∀ j, upstream j = .failure (e j)) :
    ∀ left i, fetchLoop upstream delay i (left + 1) =
      ⟨.error (e (i + left)), left + 1, List.replicate left delay⟩ := by
  intro left
  induction left with
  | zero => intro i; simp [fetchLoop, h i]
  | succ n ih =>
    intro i
    have h1 : fetchLoop upstream delay i (n + 2) =
        match upstream i with
        | .success st wf body => ⟨.ok ⟨st, wf, body⟩, 1, []⟩
        | .failure err =>
          if n + 1 = 0 then ⟨.error err, 1, []⟩
          else
            let rest := fetchLoop upstream delay (i + 1) (n + 1)
            ⟨rest.result, rest.attempts + 1, delay :: rest.delays⟩ := rfl
    rw [h1, h i]
    simp only [Nat.succ_ne_zero, if_false, ih (i + 1)]
    simp [List.replicate_succ, show i + 1 + n = i + (n + 1) by omega]

/-- C2 as stated is false on the code: an attempt resolving with HTTP 500 —
a member of the claimed retriable set — is returned immediately after a
single attempt instead of being retried, even with retries remaining. -/
theorem c2_counterexample :
    (500 ∈ retriableStatuses) ∧
    fetchWithRetry (fun i => if i = 0 then .success 500 true "err" else .success 200 true "ok")
        1000 3 = ⟨.ok ⟨500, true, "err"⟩, 1, []⟩ ∧
    (fetchWithRetry (fun i => if i = 0 then .success 500 true "err" else .success 200 true "ok")
        1000 3).attempts ≠ 2 := by
  exact ⟨by decide, rfl, by decide⟩

/-- C2 amended: every attempt of `fetchWithRetry` that resolves with an
HTTP response is returned immediately to the caller, regardless of its
status (retriable-set statuses included) and regardless of how many earlier
attempts threw: if attempts `0..k-1` throw and attempt `k ≤ retries`
resolves, the run ends at attempt `k` with that response, having made
exactly `k + 1` attempts.  Only attempts that throw (network failure or
timeout) are retried. -/
theorem c2_amended (upstream : Nat → AttemptResult) (delay retries k st : Nat)
    (e : Nat → String) (wf : Bool) (body : String)
    (hk : k ≤ retries)
    (hthrow : ∀ j, j < k → upstream j = .failure (e j))
    (hres : upstream k = .success st wf body) :
    fetchWithRetry upstream delay retries =
      ⟨.ok ⟨st, wf, body⟩, k + 1, List.replicate k delay⟩ := by
  rw [fetchWithRetry]
  exact fetchLoop_firstSuccess upstream delay e st wf body k 0 (retries + 1) (by omega)
    (fun j hj => by simpa using hthrow j hj) (by simpa using hres)

theorem c2_amended_witness :
    fetchWithRetry (fun i => if i = 0 then .failure "FetchError: ECONNRESET"
        else .success 500 true "err") 1000 3 =
      ⟨.ok ⟨500, true, "err"⟩, 1 + 1, List.replicate 1 1000⟩ :=
  c2_amended (fun i => if i = 0 then .failure "FetchError: ECONNRESET"
      else .success 500 true "err") 1000 3 1 500
    (fun _ => "FetchError: ECONNRESET") true "err" (by omega)
    (fun j hj => by
      have hj0 : j = 0 := by omega
      subst hj0
      rfl)
    rfl

/-- C3 as stated is false on the code: with an always-failing upstream and
`baseDelay = 1000`, the delays slept before the two retries are `[1000, 1000]`
— the delay before the second retry is not larger than the delay before the
first, so the backoff does not grow exponentially with the attempt index. -/
theorem c3_counterexample :
    (fetchWithRetry (fun _ => .failure "ECONNRESET") 1000 2).delays = [1000, 1000] ∧
    ¬ ((fetchWithRetry (fun _ => .failure "ECONNRESET") 1000 2).delays.getD 0 0 <
       (fetchWithRetry (fun _ => .failure "ECONNRESET") 1000 2).delays.getD 1 0) := by
  constructor <;> decide

theorem fetchLoop_delays_mem (upstream : Nat → AttemptResult) (delay : Nat) :
    ∀ left i d, d ∈ (fetchLoop upstream delay i left).delays → d = delay := by
  intro left
  induction left with
  | zero => intro i d h; simp [fetchLoop] at h
  | succ n ih =>
    intro i d h
    rw [fetchLoop_succ] at h
    cases hcase : upstream i with
    | success st wf body => rw [hcase] at h; simp at h
    | failure err =>
      rw [hcase] at h
      by_cases hn : n = 0
      · simp [hn] at h
      · simp only [hn, if_false, List.mem_cons] at h
        rcases h with h | h
        · exact h
        · exact ih (i + 1) d h

theorem fetchLoop_delays_length (upstream : Nat → AttemptResult) (delay : Nat) :
    ∀ left i, 0 < left →
      (fetchLoop upstream delay i left).delays.length + 1 =
        (fetchLoop upstream delay i left).attempts := by
  intro left
  induction left with
  | zero => intro i h; omega
  | succ n ih =>
    intro i _
    rw [fetchLoop_succ]
    cases hcase : upstream i with
    | success st wf body => simp
    | failure err =>
      by_cases hn : n = 0
      · simp [hn]
      · have := ih (i + 1) (by omega)
        simp only [hn, if_false, List.length_cons]
        omega

/-- C3 amended: in every run of `fetchWithRetry` — whether it eventually
resolves, throws to the end, or stops early — every delay slept between two
attempts equals the fixed configured `TOKEN_RETRY_DELAY_MS`, independent of
the attempt index (no exponential growth, no cap, no jitter), and there is
exactly one sleep between consecutive attempts (`attempts - 1` sleeps in
total). -/
theorem c3_amended (upstream : Nat → AttemptResult) (delay retries d : Nat)
    (hd : d ∈ (fetchWithRetry upstream delay retries).delays) :
    d = delay ∧
    (fetchWithRetry upstream delay retries).delays.length + 1 =
      (fetchWithRetry upstream delay retries).attempts :=
  ⟨fetchLoop_delays_mem upstream delay (retries + 1) 0 d hd,
   fetchLoop_delays_length upstream delay (retries + 1) 0 (by omega)⟩

theorem c3_amended_witness :
    1000 = 1000 ∧
    (fetchWithRetry (fun i => if i = 0 then .failure "FetchError: ETIMEDOUT"
        else .success 500 true "err") 1000 3).delays.length + 1 =
      (fetchWithRetry (fun i => if i = 0 then .failure "FetchError: ETIMEDOUT"
        else .success 500 true "err") 1000 3).attempts :=
  c3_amended (fun i => if i = 0 then .failure "FetchError: ETIMEDOUT"
      else .success 500 true "err") 1000 3 1000 (by decide)

/-- C4 confirmed: with `maxRetries = n` and an upstream whose every attempt
fails retriably (throws), `fetchWithRetry` performs exactly `n + 1` attempts
and then surfaces the last failure as a definitive error. -/
theorem c4_attempt_count (upstream : Nat → AttemptResult) (delay n : Nat)
    (e : Nat → String) (h : ∀ j, upstream j = .failure (e j)) :
    (fetchWithRetry upstream delay n).attempts = n + 1 ∧
    (fetchWithRetry upstream delay n).result = .error (e n) := by
  rw [fetchWithRetry, fetchLoop_allFail upstream delay e h n 0]
  exact ⟨rfl, by simp⟩

theorem c4_attempt_count_witness :
    (fetchWithRetry (fun _ => .failure "down") 1000 2).attempts = 2 + 1 ∧
    (fetchWithRetry (fun _ => .failure "down") 1000 2).result = .error "down" :=
  c4_attempt_count (fun _ => .failure "down") 1000 2 (fun _ => "down") (fun _ => rfl)

/-- C5 confirmed: on a successful token fetch with a declared positive
lifetime of `s` seconds, the cache is overwritten with
`expires_at = now + s * 900` ms, i.e. issuance time plus the declared
lifetime times the safety margin 0.9 — strictly earlier than the raw
declared expiry `now + s * 1000`; and `getToken` at any time at or past
that `expires_at` does not serve the cached token (it performs a fetch). -/
theorem c5_safety_margin (now : Nat) (resp : TokenUpstreamResponse) (st : Option CachedToken)
    (hok : resp.ok = true) (htok : resp.accessToken ≠ "") (hpos : 0 < resp.expiresIn) :
    fetchTokenFromOpenSky now resp st =
      (.ok resp.accessToken, some ⟨resp.accessToken, now + resp.expiresIn * 900⟩) ∧
    now + resp.expiresIn * 900 < now + resp.expiresIn * 1000 ∧
    (∀ t resp2, now + resp.expiresIn * 900 ≤ t →
      (getToken t (some ⟨resp.accessToken, now + resp.expiresIn * 900⟩) resp2).2.2 = 1) := by
  have hne : resp.expiresIn ≠ 0 := Nat.pos_iff_ne_zero.mp hpos
  refine ⟨?_, by omega, ?_⟩
  · simp only [fetchTokenFromOpenSky, hok, htok, hne]
    simp [htok, hne]
    omega
  · intro t resp2 ht
    simp [getToken, Nat.not_lt.mpr ht]

theorem c5_safety_margin_witness :
    fetchTokenFromOpenSky 1000 ⟨true, 200, "abc", 300, "jsonbody"⟩ none =
      (.ok "abc", some ⟨"abc", 1000 + 300 * 900⟩) ∧
    (getToken 271000 (some ⟨"abc", 1000 + 300 * 900⟩) ⟨true, 200, "zzz", 300, "jsonbody"⟩).2.2 = 1 := by
  have h := c5_safety_margin 1000 ⟨true, 200, "abc", 300, "jsonbody"⟩ none rfl (by decide) (by decide)
  exact ⟨h.1, h.2.2 271000 ⟨true, 200, "zzz", 300, "jsonbody"⟩ (by decide)⟩

/-- C6 confirmed: after a successful token refresh that cached `tok`, two
`getToken` calls at times strictly before `tok.expires_at` each perform zero
token fetches, leave the cache unchanged, and both return exactly the
refreshed token value. -/
theorem c6_idempotent (now t1 t2 : Nat) (resp resp1 resp2 : TokenUpstreamResponse)
    (st : Option CachedToken) (tok : CachedToken) (tk : String)
    (hfetch : fetchTokenFromOpenSky now resp st = (.ok tk, some tok))
    (h1 : t1 < tok.expires_at) (h2 : t2 < tok.expires_at) :
    tok.access_token = tk ∧
    getToken t1 (some tok) resp1 = (.ok tk, some tok, 0) ∧
    getToken t2 (some tok) resp2 = (.ok tk, some tok, 0) := by
  have hat : tok.access_token = tk := by
    rcases Bool.eq_false_or_eq_true (!resp.ok || resp.accessToken == "") with hb | hb
    · rw [fetchTokenFromOpenSky, hb] at hfetch
      simp at hfetch
    · rw [fetchTokenFromOpenSky, hb] at hfetch
      simp at hfetch
      obtain ⟨h₁, h₂⟩ := hfetch
      rw [← h₂]
      exact h₁
  exact ⟨hat, by simp [getToken, h1, hat], by simp [getToken, h2, hat]⟩

theorem c6_idempotent_witness :
    (⟨"abc", 271000⟩ : CachedToken).access_token = "abc" ∧
    getToken 1000 (some ⟨"abc", 271000⟩) ⟨true, 200, "zzz", 300, "jsonbody"⟩ =
      (.ok "abc", some ⟨"abc", 271000⟩, 0) ∧
    getToken 2000 (some ⟨"abc", 271000⟩) ⟨false, 500, "", 0, "jsonbody"⟩ =
      (.ok "abc", some ⟨"abc", 271000⟩, 0) :=
  c6_idempotent 1000 1000 2000 ⟨true, 200, "abc", 300, "jsonbody"⟩
    ⟨true, 200, "zzz", 300, "jsonbody"⟩ ⟨false, 500, "", 0, "jsonbody"⟩ none ⟨"abc", 271000⟩ "abc"
    (by simp [fetchTokenFromOpenSky]) (by decide) (by decide)

/-- C7 confirmed: when the token fetch fails — non-2xx status, or a body
that is malformed or lacks a non-empty `access_token` (both encoded as
`accessToken = ""`) — the cache is left unchanged and the thrown error
carries the upstream status and the stringified body truncated to 300
characters. -/
theorem c7_failure_preserves_cache (now : Nat) (resp : TokenUpstreamResponse)
    (st : Option CachedToken)
    (h : resp.ok = false ∨ resp.accessToken = "") :
    fetchTokenFromOpenSky now resp st =
      (.error ⟨resp.status, resp.stringified.take 300⟩, st) := by
  rcases h with h | h <;> simp [fetchTokenFromOpenSky, h]

theorem c7_failure_preserves_cache_witness :
    fetchTokenFromOpenSky 5000 ⟨false, 401, "", 0, "\x7binvalid_client\x7d"⟩
        (some ⟨"old", 9999⟩) =
      (.error ⟨401, ("\x7binvalid_client\x7d" : String).take 300⟩, some ⟨"old", 9999⟩) :=
  c7_failure_preserves_cache 5000 ⟨false, 401, "", 0, "\x7binvalid_client\x7d"⟩
    (some ⟨"old", 9999⟩) (Or.inl rfl)

/-- C1 as stated is false on the code: the states route keeps no response
cache.  With Basic credentials, after a first request that succeeds
upstream (HTTP 200 with a payload), a second request whose upstream fetch
fails is answered 504 with an `error`/`detail` body — not 200 with the
previous payload and `stale=true`. -/
theorem c1_counterexample :
    (serve ⟨"u", "p", "", "", "s", 1000, 1⟩ none 0 ⟨.states, some "s", ""⟩
        ⟨false, 0, "", 0, ""⟩ (fun _ => .success 200 true "payload")).status = 200 ∧
    (serve ⟨"u", "p", "", "", "s", 1000, 1⟩ none 0 ⟨.states, some "s", ""⟩
        ⟨false, 0, "", 0, ""⟩ (fun _ => .success 200 true "payload")).tokenState = none ∧
    (serve ⟨"u", "p", "", "", "s", 1000, 1⟩ none 60000 ⟨.states, some "s", ""⟩
        ⟨false, 0, "", 0, ""⟩ (fun _ => .failure "FetchError: ETIMEDOUT")).status = 504 ∧
    (serve ⟨"u", "p", "", "", "s", 1000, 1⟩ none 60000 ⟨.states, some "s", ""⟩
        ⟨false, 0, "", 0, ""⟩ (fun _ => .failure "FetchError: ETIMEDOUT")).status ≠ 200 ∧
    (serve ⟨"u", "p", "", "", "s", 1000, 1⟩ none 60000 ⟨.states, some "s", ""⟩
        ⟨false, 0, "", 0, ""⟩ (fun _ => .failure "FetchError: ETIMEDOUT")).body =
      .errorDetail "Upstream timeout" "FetchError: ETIMEDOUT" := by
  exact ⟨rfl, rfl, rfl, by decide, rfl⟩

/-- C1 amended: the states route has no response cache.  Whenever every
upstream attempt fails (throws) and an authorization source is available —
a caller-supplied token, Basic credentials, or OAuth configuration under
which a token can be obtained — the route answers HTTP 504 with
`error: 'Upstream timeout'` and the failure detail, regardless of any
earlier successful fetch. -/
theorem c1_amended (cfg : Config) (st : Option CachedToken) (now : Nat) (qt : String)
    (tokenResp : TokenUpstreamResponse) (statesUp : Nat → AttemptResult) (e : Nat → String)
    (hauth : qt ≠ "" ∨ basicConfigured cfg = true ∨
      (oauthConfigured cfg = true ∧
        ∃ t st' n, getToken now st tokenResp = (.ok t, st', n)))
    (hfail : ∀ j, statesUp j = .failure (e j)) :
    (serve cfg st now ⟨.states, some cfg.proxySecret, qt⟩ tokenResp statesUp).status = 504 ∧
    (serve cfg st now ⟨.states, some cfg.proxySecret, qt⟩ tokenResp statesUp).body =
      .errorDetail "Upstream timeout" (e cfg.maxRetries) := by
  have htr : (fetchWithRetry statesUp cfg.retryDelay cfg.maxRetries).result
      = .error (e cfg.maxRetries) := by
    rw [fetchWithRetry, fetchLoop_allFail statesUp cfg.retryDelay e hfail cfg.maxRetries 0]
    simp
  by_cases hq : qt = ""
  · by_cases hb : basicConfigured cfg = true
    · simp [serve, statesRoute, hq, hb, statesFetch, htr]
    · have ho : oauthConfigured cfg = true ∧
          ∃ t st' n, getToken now st tokenResp = (.ok t, st', n) := by
        rcases hauth with h | h | h
        · exact absurd hq h
        · exact absurd h hb
        · exact h
      obtain ⟨hoc, t, st', n, hget⟩ := ho
      simp [serve, statesRoute, hq, hb, hoc, hget, statesFetch, htr]
  · simp [serve, statesRoute, hq, statesFetch, htr]

theorem c1_amended_witness :
    (serve ⟨"", "", "cid", "csec", "s", 1000, 2⟩ none 0 ⟨.states, some "s", ""⟩
        ⟨true, 200, "tok", 300, "b"⟩ (fun _ => .failure "FetchError: ECONNRESET")).status = 504 ∧
    (serve ⟨"", "", "cid", "csec", "s", 1000, 2⟩ none 0 ⟨.states, some "s", ""⟩
        ⟨true, 200, "tok", 300, "b"⟩ (fun _ => .failure "FetchError: ECONNRESET")).body =
      .errorDetail "Upstream timeout" "FetchError: ECONNRESET" :=
  c1_amended ⟨"", "", "cid", "csec", "s", 1000, 2⟩ none 0 "" ⟨true, 200, "tok", 300, "b"⟩
    (fun _ => .failure "FetchError: ECONNRESET") (fun _ => "FetchError: ECONNRESET")
    (Or.inr (Or.inr ⟨rfl, "tok", some ⟨"tok", 270000⟩, 1, rfl⟩))
    (fun _ => rfl)

/-- C8 confirmed: with both Basic and OAuth credentials configured, a states
request carrying the correct shared secret and no `token` query parameter
sends `Basic base64(username:password)` upstream, performs zero token
fetches, and leaves the token cache untouched. -/
theorem c8_basic_priority (cfg : Config) (st : Option CachedToken) (now : Nat)
    (tokenResp : TokenUpstreamResponse) (statesUp : Nat → AttemptResult)
    (hb : basicConfigured cfg = true) (_ho : oauthConfigured cfg = true) :
    (serve cfg st now ⟨.states, some cfg.proxySecret, ""⟩ tokenResp statesUp).sentAuth =
      some ("Basic " ++ toBase64 (cfg.user ++ ":" ++ cfg.pass)) ∧
    (serve cfg st now ⟨.states, some cfg.proxySecret, ""⟩ tokenResp statesUp).tokenFetches = 0 ∧
    (serve cfg st now ⟨.states, some cfg.proxySecret, ""⟩ tokenResp statesUp).tokenState = st := by
  simp [serve, statesRoute, hb, statesFetch]

theorem c8_basic_priority_witness :
    (serve ⟨"user", "pass", "cid", "csec", "s", 1000, 3⟩ none 0 ⟨.states, some "s", ""⟩
        ⟨true, 200, "t", 300, "b"⟩ (fun _ => .success 200 true "d")).sentAuth =
      some ("Basic " ++ toBase64 ("user" ++ ":" ++ "pass")) ∧
    (serve ⟨"user", "pass", "cid", "csec", "s", 1000, 3⟩ none 0 ⟨.states, some "s", ""⟩
        ⟨true, 200, "t", 300, "b"⟩ (fun _ => .success 200 true "d")).tokenFetches = 0 ∧
    (serve ⟨"user", "pass", "cid", "csec", "s", 1000, 3⟩ none 0 ⟨.states, some "s", ""⟩
        ⟨true, 200, "t", 300, "b"⟩ (fun _ => .success 200 true "d")).tokenState = none :=
  c8_basic_priority ⟨"user", "pass", "cid", "csec", "s", 1000, 3⟩ none 0
    ⟨true, 200, "t", 300, "b"⟩ (fun _ => .success 200 true "d") rfl rfl

/-- C9 confirmed: a states request whose `x-proxy-secret` header does not
equal the configured secret is answered 403 `{error: 'Unauthorized'}` with
zero token fetches, zero upstream attempts, and no Authorization header
sent; and the responses of `/health` and `/opensky/token` do not depend on
the `x-proxy-secret` header at all. -/
theorem c9_shared_secret (cfg : Config) (st : Option CachedToken) (now : Nat)
    (sh : Option String) (qt : String) (tokenResp : TokenUpstreamResponse)
    (statesUp : Nat → AttemptResult)
    (hmis : sh ≠ some cfg.proxySecret) :
    serve cfg st now ⟨.states, sh, qt⟩ tokenResp statesUp =
      ⟨403, .errorMsg "Unauthorized", st, 0, 0, none⟩ ∧
    (∀ sh₂, serve cfg st now ⟨.health, sh, qt⟩ tokenResp statesUp =
            serve cfg st now ⟨.health, sh₂, qt⟩ tokenResp statesUp) ∧
    (∀ sh₂, serve cfg st now ⟨.token, sh, qt⟩ tokenResp statesUp =
            serve cfg st now ⟨.token, sh₂, qt⟩ tokenResp statesUp) := by
  refine ⟨?_, fun _ => rfl, fun _ => rfl⟩
  simp [serve, hmis]

theorem c9_shared_secret_witness :
    serve ⟨"u", "p", "", "", "s", 1000, 3⟩ none 0 ⟨.states, some "wrong", ""⟩
        ⟨true, 200, "t", 300, "b"⟩ (fun _ => .success 200 true "d") =
      ⟨403, .errorMsg "Unauthorized", none, 0, 0, none⟩ ∧
    (∀ sh₂, serve ⟨"u", "p", "", "", "s", 1000, 3⟩ none 0 ⟨.health, some "wrong", ""⟩
              ⟨true, 200, "t", 300, "b"⟩ (fun _ => .success 200 true "d") =
            serve ⟨"u", "p", "", "", "s", 1000, 3⟩ none 0 ⟨.health, sh₂, ""⟩
              ⟨true, 200, "t", 300, "b"⟩ (fun _ => .success 200 true "d")) ∧
    (∀ sh₂, serve ⟨"u", "p", "", "", "s", 1000, 3⟩ none 0 ⟨.token, some "wrong", ""⟩
              ⟨true, 200, "t", 300, "b"⟩ (fun _ => .success 200 true "d") =
            serve ⟨"u", "p", "", "", "s", 1000, 3⟩ none 0 ⟨.token, sh₂, ""⟩
              ⟨true, 200, "t", 300, "b"⟩ (fun _ => .success 200 true "d")) :=
  c9_shared_secret ⟨"u", "p", "", "", "s", 1000, 3⟩ none 0 (some "wrong") ""
    ⟨true, 200, "t", 300, "b"⟩ (fun _ => .success 200 true "d") (by decide)

/-- C10 confirmed: a states request with the correct shared secret and a
non-empty `token` query parameter sends `Bearer <token>` upstream —
overriding Basic and OAuth configuration alike — with zero token fetches
and the token cache untouched. -/
theorem c10_query_token_override (cfg : Config) (st : Option CachedToken) (now : Nat)
    (qt : String) (tokenResp : TokenUpstreamResponse) (statesUp : Nat → AttemptResult)
    (hq : qt ≠ "") :
    (serve cfg st now ⟨.states, some cfg.proxySecret, qt⟩ tokenResp statesUp).sentAuth =
      some ("Bearer " ++ qt) ∧
    (serve cfg st now ⟨.states, some cfg.proxySecret, qt⟩ tokenResp statesUp).tokenFetches = 0 ∧
    (serve cfg st now ⟨.states, some cfg.proxySecret, qt⟩ tokenResp statesUp).tokenState = st := by
  simp [serve, statesRoute, hq, statesFetch]

theorem c10_query_token_override_witness :
    (serve ⟨"user", "pass", "cid", "csec", "s", 1000, 3⟩ (some ⟨"cached", 99999⟩) 0
        ⟨.states, some "s", "mytok"⟩ ⟨true, 200, "t", 300, "b"⟩
        (fun _ => .success 200 true "d")).sentAuth = some ("Bearer " ++ "mytok") ∧
    (serve ⟨"user", "pass", "cid", "csec", "s", 1000, 3⟩ (some ⟨"cached", 99999⟩) 0
        ⟨.states, some "s", "mytok"⟩ ⟨true, 200, "t", 300, "b"⟩
        (fun _ => .success 200 true "d")).tokenFetches = 0 ∧
    (serve ⟨"user", "pass", "cid", "csec", "s", 1000, 3⟩ (some ⟨"cached", 99999⟩) 0
        ⟨.states, some "s", "mytok"⟩ ⟨true, 200, "t", 300, "b"⟩
        (fun _ => .success 200 true "d")).tokenState = some ⟨"cached", 99999⟩ :=
  c10_query_token_override ⟨"user", "pass", "cid", "csec", "s", 1000, 3⟩
    (some ⟨"cached", 99999⟩) 0 "mytok" ⟨true, 200, "t", 300, "b"⟩
    (fun _ => .success 200 true "d") (by decide)

end TaxitipProxy
